import Mathlib

/-!
Shallow embedding of `packages/api/src/tech-preview.ts` from the web5-js
repository, together with proofs about its two exported operations:

* `generateDwnConfiguration` — assembles a DID-ION creation configuration
  from two externally generated JWK key pairs and a list of DWN URLs;
* `getTechPreviewDwnEndpoints` — fetches a well-known discovery document,
  extracts the `#dwn` service descriptor, validates the endpoint shape and
  performs bounded randomized health probing over the candidate URLs.

External effects (the HTTP transport, JSON parsing, `Math.random`, and the
key-generation collaborator) are passed in as explicit parameters, so the
embedded functions are pure and every observable outcome of the original
code corresponds to a choice of those parameters.  Thrown exceptions are
modelled with `Except`.
-/

set_option autoImplicit false

namespace TechPreview

/-! ### Data model for `generateDwnConfiguration` -/

/-- A request to the external key-generation collaborator
`DidIonMethod.generateJwkKeyPair`, carrying the `keyAlgorithm` and `keyId`
options that the source passes to it. -/
structure KeyGenRequest where
  keyAlgorithm : String
  keyId : String
deriving DecidableEq, Repr

/-- An externally generated JWK key pair.  Its contents are opaque to the
code under verification (the source only spreads the returned object), so
it is modelled as an abstract token. -/
structure JwkKeyPair where
  material : Nat
deriving DecidableEq, Repr

/-- One entry of `keySet.verificationMethodKeys`: a generated key pair
spread together with a `relationships` list, as in
`{ ...signingKeyPair, relationships: ['authentication'] }`. -/
structure VerificationMethodKey where
  keyPair : JwkKeyPair
  relationships : List String
deriving DecidableEq, Repr

/-- The `DidIonKeySet` assembled by `generateDwnConfiguration`. -/
structure DidIonKeySet where
  verificationMethodKeys : List VerificationMethodKey
deriving DecidableEq, Repr

/-- The structured `serviceEndpoint` object literal built by
`generateDwnConfiguration`. -/
structure DwnServiceEndpoint where
  nodes : List String
  signingKeys : List String
  encryptionKeys : List String
deriving DecidableEq, Repr

/-- A `DidService` entry as built by `generateDwnConfiguration`. -/
structure DidService where
  id : String
  type : String
  serviceEndpoint : DwnServiceEndpoint
deriving DecidableEq, Repr

/-- The `DidIonCreateOptions` record returned by
`generateDwnConfiguration`. -/
structure DidIonCreateOptions where
  keySet : DidIonKeySet
  services : List DidService
deriving DecidableEq, Repr

/-- Embedding of `generateDwnConfiguration` from
`packages/api/src/tech-preview.ts`.  The external collaborator
`DidIonMethod.generateJwkKeyPair` is a parameter `generateJwkKeyPair`; a
rejected promise is an `Except.error`, and the `await` of a rejected
promise propagates the error, exactly as the monadic bind does here. -/
def generateDwnConfiguration
    (generateJwkKeyPair : KeyGenRequest → Except String JwkKeyPair)
    (dwnUrls : List String) : Except String DidIonCreateOptions := do
  let signingKeyPair ← generateJwkKeyPair
    { keyAlgorithm := "Ed25519", keyId := "#dwn-sig" }
  let encryptionKeyPair ← generateJwkKeyPair
    { keyAlgorithm := "Ed25519", keyId := "#dwn-enc" }
  let keySet : DidIonKeySet :=
    { verificationMethodKeys :=
        [ { keyPair := signingKeyPair, relationships := ["authentication"] },
          { keyPair := encryptionKeyPair, relationships := ["keyAgreement"] } ] }
  let services : List DidService :=
    [ { id := "#dwn",
        type := "DecentralizedWebNode",
        serviceEndpoint :=
          { nodes := dwnUrls,
            signingKeys := ["#dwn-sig"],
            encryptionKeys := ["#dwn-enc"] } } ]
  pure { keySet := keySet, services := services }

/-! ### Data model for `getTechPreviewDwnEndpoints` -/

/-- The `nodes` field of a structured endpoint object in the untrusted
discovery document: absent, present but not an array, or an array of node
URLs.  The source only tests `Array.isArray(serviceEndpoint.nodes)` and
then uses the array, so this is the full distinction it can observe. -/
inductive NodesField where
  | absent
  | nonArrayValue
  | urlArray (urls : List String)
deriving DecidableEq, Repr

/-- The `serviceEndpoint` field of a discovered service: a plain string,
an array (its contents are never inspected, only its length is kept for
concreteness), the JSON value `null`, or a structured object with a
`nodes` field.  `null` matters because it passes all three checks of the
source (`in` sees the property, `Array.isArray(null)` is false and
`typeof null` is `object`, not `string`) and then `serviceEndpoint.nodes`
throws a TypeError.  A number or boolean endpoint (also legal JSON) passes
the same checks but its `nodes` property access yields `undefined`, which
fails `Array.isArray`; it therefore behaves exactly like an object without
an array `nodes` field and is represented here by `obj absent`. -/
inductive ServiceEndpointValue where
  | str (s : String)
  | arr (len : Nat)
  | nullValue
  | obj (nodes : NodesField)
deriving DecidableEq, Repr

/-- A service entry of the untrusted discovery document.  `serviceEndpoint
= none` models a JSON object without a `serviceEndpoint` member, which the
source detects with the `in` operator. -/
structure DiscoveredService where
  id : String
  type : String
  serviceEndpoint : Option ServiceEndpointValue
deriving DecidableEq, Repr

/-- The parsed discovery document: its `service` array (possibly empty). -/
structure DidDocument where
  service : List DiscoveredService
deriving DecidableEq, Repr

/-- Modelled from the spec: `didUtils.getServices` lives in the `dids`
package of the repository, outside the provided sources.  Per the spec it
locates the service descriptors whose identifier equals the given fragment
value and whose type equals the given tag, returning all matches in
document order (an empty list when none match). -/
def getServices (didDocument : DidDocument) (id type : String) :
    List DiscoveredService :=
  didDocument.service.filter (fun s => s.id == id && s.type == type)

/-- Outcome of parsing the response body with `response.json()`: either a
rejected promise (malformed JSON) or a parsed document. -/
inductive BodyResult where
  | parseError
  | doc (d : DidDocument)
deriving DecidableEq, Repr

/-- Outcome of the discovery `fetch`: a transport-level rejection, or a
response with an HTTP status code and a body. -/
inductive FetchResult where
  | transportError
  | response (status : Nat) (body : BodyResult)
deriving DecidableEq, Repr

/-- The `Response.ok` flag of the Fetch API: true exactly when the status
is in the range 200–299. -/
def responseOk (status : Nat) : Bool :=
  200 ≤ status && status < 300

/-- Outcome of one health probe `fetch(dwnUrl + "/health")`: the promise
resolves with `ok` true, resolves with `ok` false, or rejects at the
transport level.  The source treats the last two identically (the non-ok
case adds nothing, the rejection is swallowed by the catch block). -/
inductive ProbeOutcome where
  | success
  | httpFailure
  | transportError
deriving DecidableEq, Repr

/-- Embedding of `techPreviewEndpoints.add(dwnUrl)`: JavaScript `Set`
insertion keeps insertion order and ignores an element already present. -/
def setAdd (xs : List String) (x : String) : List String :=
  if x ∈ xs then xs else xs ++ [x]

/-- Embedding of `getRandomInt(min, max)` from the source:
`Math.floor(Math.random() * (max - min)) + min` after `min = Math.ceil(min)`
and `max = Math.floor(max)`.  The `Math.random()` draw is the parameter
`random`, a rational in `[0, 1)`. -/
def getRandomInt (random : Rat) (min max : Rat) : Int :=
  Int.floor (random * ((Int.floor max : Rat) - (Int.ceil min : Rat))) + Int.ceil min

/-- The body of the probing loop: on a successful health check the URL is
added to the result set; a non-ok response or a transport failure leaves
the set unchanged (the catch block ignores the failure). -/
def stepAdd (probe : String → ProbeOutcome) (acc : List String)
    (url : String) : List String :=
  match probe url with
  | ProbeOutcome.success => setAdd acc url
  | ProbeOutcome.httpFailure => acc
  | ProbeOutcome.transportError => acc

/-- Embedding of the probing `for` loop of `getTechPreviewDwnEndpoints`.
`fuel` is the number of loop iterations still allowed by the guard
`attempts < dwnUrls.length`; `attempts` is the current attempt counter,
used to index the sequence `rand` of `Math.random()` draws; `acc` is the
current result set.  Returns the final result set together with the number
of health probes performed.  An out-of-range index (impossible for draws
in `[0, 1)`) yields the JavaScript `undefined` read, modelled as the
string literal the template `dwnUrl + "/health"` would produce. -/
def probeLoop (dwnUrls : List String) (probe : String → ProbeOutcome)
    (rand : Nat → Rat) (numNodesToAllocate : Nat) :
    Nat → Nat → List String → List String × Nat
  | 0, _, acc => (acc, 0)
  | fuel + 1, attempts, acc =>
    if acc.length < numNodesToAllocate then
      ((probeLoop dwnUrls probe rand numNodesToAllocate fuel (attempts + 1)
          (stepAdd probe acc (dwnUrls.getD
            (getRandomInt (rand attempts) 0 (dwnUrls.length : Rat)).toNat
            "undefined"))).1,
       (probeLoop dwnUrls probe rand numNodesToAllocate fuel (attempts + 1)
          (stepAdd probe acc (dwnUrls.getD
            (getRandomInt (rand attempts) 0 (dwnUrls.length : Rat)).toNat
            "undefined"))).2 + 1)
    else (acc, 0)

/-- Instrumented embedding of `getTechPreviewDwnEndpoints`: returns the
list of selected endpoints together with the number of health probes
performed, or an `Except.error` when the source code would throw.

The `try` block of the source covers only the discovery `fetch` and the
status check, so those two failures return `[]`; the later
`response.json()` rejection, the `in` operator applied to the `undefined`
result of destructuring an empty `getServices` array, and the `nodes`
property access on a `null`-valued `serviceEndpoint` are uncaught and
reject the returned promise. -/
def getTechPreviewDwnEndpointsRun (fetchResult : FetchResult)
    (probe : String → ProbeOutcome) (rand : Nat → Rat) :
    Except String (List String × Nat) :=
  match fetchResult with
  | FetchResult.transportError => Except.ok ([], 0)
  | FetchResult.response status body =>
    if responseOk status then
      match body with
      | BodyResult.parseError =>
        Except.error "SyntaxError: response body is not valid JSON"
      | BodyResult.doc didDocument =>
        match (getServices didDocument "#dwn" "DecentralizedWebNode").head? with
        | none =>
          Except.error "TypeError: cannot use in operator to search for serviceEndpoint in undefined"
        | some dwnService =>
          match dwnService.serviceEndpoint with
          | some (ServiceEndpointValue.obj (NodesField.urlArray dwnUrls)) =>
            Except.ok (probeLoop dwnUrls probe rand
              (min dwnUrls.length 2) dwnUrls.length 0 [])
          | some ServiceEndpointValue.nullValue =>
            Except.error "TypeError: cannot read properties of null reading nodes"
          | _ => Except.ok ([], 0)
    else
      Except.ok ([], 0)

/-- Embedding of `getTechPreviewDwnEndpoints` proper: the returned value
is `Array.from(techPreviewEndpoints)`, i.e. the result set in insertion
order, without the probe count of the instrumented run. -/
def getTechPreviewDwnEndpoints (fetchResult : FetchResult)
    (probe : String → ProbeOutcome) (rand : Nat → Rat) :
    Except String (List String) :=
  (getTechPreviewDwnEndpointsRun fetchResult probe rand).map Prod.fst

/-- A discovery document holding exactly one `#dwn` /
`DecentralizedWebNode` service whose endpoint is a structured object with
the given node URL array; used to instantiate theorems at concrete
inputs. -/
def sampleDoc (urls : List String) : DidDocument :=
  { service :=
      [ { id := "#dwn",
          type := "DecentralizedWebNode",
          serviceEndpoint :=
            some (ServiceEndpointValue.obj (NodesField.urlArray urls)) } ] }

/-- A discovered service whose endpoint is a plain string; used to
instantiate the shape-validation theorems at a concrete input. -/
def strEndpointService : DiscoveredService :=
  { id := "#dwn",
    type := "DecentralizedWebNode",
    serviceEndpoint := some (ServiceEndpointValue.str "https://x.example") }

/-- A discovery document holding exactly `strEndpointService`. -/
def strEndpointDoc : DidDocument :=
  { service := [strEndpointService] }

/-- A discovered service whose endpoint is the JSON value `null`; used to
instantiate the null-endpoint error path at a concrete input. -/
def nullEndpointService : DiscoveredService :=
  { id := "#dwn",
    type := "DecentralizedWebNode",
    serviceEndpoint := some ServiceEndpointValue.nullValue }

/-- A discovery document holding exactly `nullEndpointService`. -/
def nullEndpointDoc : DidDocument :=
  { service := [nullEndpointService] }

end TechPreview

namespace TechPreview

/-! ### Helper lemmas -/

lemma getRandomInt_eq_floor_mul (q : Rat) (n : Nat) :
    getRandomInt q 0 (n : Rat) = Int.floor (q * (n : Rat)) := by
  simp [getRandomInt]

lemma getRandomInt_bounds (q : Rat) (n : Nat)
    (h0 : 0 ≤ q) (h1 : q < 1) (hn : 1 ≤ n) :
    0 ≤ getRandomInt q 0 (n : Rat) ∧ getRandomInt q 0 (n : Rat) < n := by
  rw [getRandomInt_eq_floor_mul]
  have hnpos : (0 : Rat) < (n : Rat) := by exact_mod_cast hn
  constructor
  · exact Int.floor_nonneg.mpr (mul_nonneg h0 (le_of_lt hnpos))
  · apply Int.floor_lt.mpr
    push_cast
    calc q * (n : Rat) < 1 * (n : Rat) := mul_lt_mul_of_pos_right h1 hnpos
    _ = (n : Rat) := one_mul _

lemma getRandomInt_toNat_lt (q : Rat) (n : Nat)
    (h0 : 0 ≤ q) (h1 : q < 1) (hn : 1 ≤ n) :
    (getRandomInt q 0 (n : Rat)).toNat < n := by
  have h := getRandomInt_bounds q n h0 h1 hn
  omega

lemma mem_setAdd {xs : List String} {x y : String} :
    y ∈ setAdd xs x → y ∈ xs ∨ y = x := by
  unfold setAdd
  split
  · exact fun h => Or.inl h
  · intro h
    rcases List.mem_append.mp h with h' | h'
    · exact Or.inl h'
    · exact Or.inr (List.mem_singleton.mp h')

lemma setAdd_of_mem {xs : List String} {x : String} (h : x ∈ xs) :
    setAdd xs x = xs := by
  simp [setAdd, h]

lemma setAdd_length_le (xs : List String) (x : String) :
    (setAdd xs x).length ≤ xs.length + 1 := by
  unfold setAdd
  split
  · omega
  · simp

lemma length_le_setAdd (xs : List String) (x : String) :
    xs.length ≤ (setAdd xs x).length := by
  unfold setAdd
  split
  · exact le_refl _
  · simp

lemma setAdd_sublist (xs : List String) (x : String) :
    ∀ y ∈ xs, y ∈ setAdd xs x := by
  intro y hy
  unfold setAdd
  split
  · exact hy
  · exact List.mem_append.mpr (Or.inl hy)

lemma setAdd_nodup {xs : List String} {x : String} (h : xs.Nodup) :
    (setAdd xs x).Nodup := by
  unfold setAdd
  split
  · exact h
  · next hx => simp [List.nodup_append, h, hx]

lemma mem_stepAdd {p : String → ProbeOutcome} {acc : List String}
    {url y : String} :
    y ∈ stepAdd p acc url →
      y ∈ acc ∨ (y = url ∧ p url = ProbeOutcome.success) := by
  unfold stepAdd
  cases hp : p url with
  | success =>
    intro h
    rcases mem_setAdd h with h' | h'
    · exact Or.inl h'
    · exact Or.inr ⟨h', rfl⟩
  | httpFailure => exact fun h => Or.inl h
  | transportError => exact fun h => Or.inl h

lemma stepAdd_length_le (p : String → ProbeOutcome) (acc : List String)
    (url : String) : (stepAdd p acc url).length ≤ acc.length + 1 := by
  unfold stepAdd
  cases p url with
  | success => exact setAdd_length_le acc url
  | httpFailure => exact Nat.le_succ _
  | transportError => exact Nat.le_succ _

lemma length_le_stepAdd (p : String → ProbeOutcome) (acc : List String)
    (url : String) : acc.length ≤ (stepAdd p acc url).length := by
  unfold stepAdd
  cases p url with
  | success => exact length_le_setAdd acc url
  | httpFailure => exact le_refl _
  | transportError => exact le_refl _

lemma stepAdd_nodup {p : String → ProbeOutcome} {acc : List String}
    {url : String} (h : acc.Nodup) : (stepAdd p acc url).Nodup := by
  unfold stepAdd
  cases p url with
  | success => exact setAdd_nodup h
  | httpFailure => exact h
  | transportError => exact h

end TechPreview

namespace TechPreview

lemma probeLoop_count_le (u : List String) (p : String → ProbeOutcome)
    (r : Nat → Rat) (t : Nat) :
    ∀ (fuel attempts : Nat) (acc : List String),
      (probeLoop u p r t fuel attempts acc).2 ≤ fuel := by
  intro fuel
  induction fuel with
  | zero => intro attempts acc; simp [probeLoop]
  | succ f ih =>
    intro attempts acc
    simp only [probeLoop]
    split
    · simpa using Nat.succ_le_succ (ih (attempts + 1) _)
    · simp

lemma probeLoop_length_le (u : List String) (p : String → ProbeOutcome)
    (r : Nat → Rat) (t : Nat) :
    ∀ (fuel attempts : Nat) (acc : List String), acc.length ≤ t →
      (probeLoop u p r t fuel attempts acc).1.length ≤ t := by
  intro fuel
  induction fuel with
  | zero => intro attempts acc h; simpa [probeLoop] using h
  | succ f ih =>
    intro attempts acc h
    simp only [probeLoop]
    split
    · next hlt =>
      simp only []
      refine ih (attempts + 1) _ ?_
      calc (stepAdd p acc _).length ≤ acc.length + 1 := stepAdd_length_le _ _ _
      _ ≤ t := hlt
    · simpa using h

lemma probeLoop_length_mono (u : List String) (p : String → ProbeOutcome)
    (r : Nat → Rat) (t : Nat) :
    ∀ (fuel attempts : Nat) (acc : List String),
      acc.length ≤ (probeLoop u p r t fuel attempts acc).1.length := by
  intro fuel
  induction fuel with
  | zero => intro attempts acc; simp [probeLoop]
  | succ f ih =>
    intro attempts acc
    simp only [probeLoop]
    split
    · calc acc.length ≤ (stepAdd p acc _).length := length_le_stepAdd _ _ _
      _ ≤ _ := ih (attempts + 1) _
    · simp

lemma probeLoop_mem (u : List String) (p : String → ProbeOutcome)
    (r : Nat → Rat) (t : Nat)
    (hr : ∀ i, 0 ≤ r i ∧ r i < 1) (hu : 1 ≤ u.length) :
    ∀ (fuel attempts : Nat) (acc : List String) (y : String),
      y ∈ (probeLoop u p r t fuel attempts acc).1 →
        y ∈ acc ∨ (y ∈ u ∧ p y = ProbeOutcome.success) := by
  intro fuel
  induction fuel with
  | zero => intro attempts acc y hy; simp only [probeLoop] at hy; exact Or.inl hy
  | succ f ih =>
    intro attempts acc y hy
    simp only [probeLoop] at hy
    by_cases hlt : acc.length < t
    · rw [if_pos hlt] at hy
      simp only [] at hy
      have hidx : (getRandomInt (r attempts) 0 (u.length : Rat)).toNat < u.length :=
        getRandomInt_toNat_lt _ _ (hr attempts).1 (hr attempts).2 hu
      have hurl : u.getD (getRandomInt (r attempts) 0 (u.length : Rat)).toNat "undefined" ∈ u := by
        rw [List.getD_eq_getElem u _ hidx]
        exact List.getElem_mem hidx
      rcases ih (attempts + 1) _ y hy with hstep | hdone
      · rcases mem_stepAdd hstep with hacc | ⟨hyeq, hps⟩
        · exact Or.inl hacc
        · subst hyeq
          exact Or.inr ⟨hurl, hps⟩
      · exact Or.inr hdone
    · rw [if_neg hlt] at hy
      exact Or.inl hy

lemma probeLoop_nodup (u : List String) (p : String → ProbeOutcome)
    (r : Nat → Rat) (t : Nat) :
    ∀ (fuel attempts : Nat) (acc : List String), acc.Nodup →
      (probeLoop u p r t fuel attempts acc).1.Nodup := by
  intro fuel
  induction fuel with
  | zero => intro attempts acc h; simpa [probeLoop] using h
  | succ f ih =>
    intro attempts acc h
    simp only [probeLoop]
    split
    · exact ih (attempts + 1) _ (stepAdd_nodup h)
    · simpa using h

lemma probeLoop_exit (u : List String) (p : String → ProbeOutcome)
    (r : Nat → Rat) (t : Nat) :
    ∀ (fuel attempts : Nat) (acc : List String), acc.length ≤ t →
      (probeLoop u p r t fuel attempts acc).2 = fuel ∨
      (probeLoop u p r t fuel attempts acc).1.length = t := by
  intro fuel
  induction fuel with
  | zero => intro attempts acc _; left; simp [probeLoop]
  | succ f ih =>
    intro attempts acc h
    simp only [probeLoop]
    split
    · next hlt =>
      have hstep : (stepAdd p acc
          (u.getD (getRandomInt (r attempts) 0 (u.length : Rat)).toNat "undefined")).length ≤ t := by
        calc (stepAdd p acc
            (u.getD (getRandomInt (r attempts) 0 (u.length : Rat)).toNat "undefined")).length
            ≤ acc.length + 1 := stepAdd_length_le _ _ _
        _ ≤ t := hlt
      rcases ih (attempts + 1) (stepAdd p acc
          (u.getD (getRandomInt (r attempts) 0 (u.length : Rat)).toNat "undefined")) hstep with hc | hl
      · left; simpa using hc
      · right; simpa using hl
    · next hlt =>
      right
      simpa using Nat.le_antisymm h (Nat.le_of_not_lt hlt)

lemma probeLoop_pos (u : List String) (p : String → ProbeOutcome)
    (r : Nat → Rat) (t : Nat)
    (hr : ∀ i, 0 ≤ r i ∧ r i < 1) (hu : 1 ≤ u.length)
    (hall : ∀ x ∈ u, p x = ProbeOutcome.success) (ht : 1 ≤ t) :
    ∀ (fuel attempts : Nat), 1 ≤ fuel →
      1 ≤ (probeLoop u p r t fuel attempts []).1.length := by
  intro fuel attempts hf
  match fuel, hf with
  | f + 1, _ =>
    simp only [probeLoop]
    rw [if_pos (by simpa using ht)]
    simp only []
    have hidx : (getRandomInt (r attempts) 0 (u.length : Rat)).toNat < u.length :=
      getRandomInt_toNat_lt _ _ (hr attempts).1 (hr attempts).2 hu
    have hurl : u.getD (getRandomInt (r attempts) 0 (u.length : Rat)).toNat "undefined" ∈ u := by
      rw [List.getD_eq_getElem u _ hidx]
      exact List.getElem_mem hidx
    have hstep : (stepAdd p []
        (u.getD (getRandomInt (r attempts) 0 (u.length : Rat)).toNat "undefined")).length = 1 := by
      rw [stepAdd, hall _ hurl]
      simp [setAdd]
    calc 1 = (stepAdd p []
          (u.getD (getRandomInt (r attempts) 0 (u.length : Rat)).toNat "undefined")).length :=
        hstep.symm
    _ ≤ _ := probeLoop_length_mono u p r t f (attempts + 1) _

end TechPreview

namespace TechPreview

lemma run_eq_probeLoop {status : Nat} {d : DidDocument}
    {svc : DiscoveredService} {urls : List String}
    (p : String → ProbeOutcome) (r : Nat → Rat)
    (hok : responseOk status = true)
    (hsvc : (getServices d "#dwn" "DecentralizedWebNode").head? = some svc)
    (hep : svc.serviceEndpoint =
      some (ServiceEndpointValue.obj (NodesField.urlArray urls))) :
    getTechPreviewDwnEndpointsRun (FetchResult.response status (BodyResult.doc d)) p r =
      Except.ok (probeLoop urls p r (min urls.length 2) urls.length 0 []) := by
  simp [getTechPreviewDwnEndpointsRun, hok, hsvc, hep]

lemma except_ok_bind {α β : Type} (a : α) (f : α → Except String β) :
    (Except.ok a >>= f) = f a := rfl

lemma except_error_bind {α β : Type} (e : String) (f : α → Except String β) :
    ((Except.error e : Except String α) >>= f) = Except.error e := rfl

/-- C1: for every input list `dwnUrls` (including `[]`), when both
key-generation calls succeed, `generateDwnConfiguration` returns a
configuration with exactly one service descriptor, of type
`DecentralizedWebNode`, whose `nodes` list is the input list verbatim,
whose signing-keys list is exactly `["#dwn-sig"]` (the signing key's
identifier) and whose encryption-keys list is exactly `["#dwn-enc"]` (the
encryption key's identifier), and with exactly two key references in the
key set. -/
theorem generateDwnConfiguration_service_shape
    (gen : KeyGenRequest → Except String JwkKeyPair) (dwnUrls : List String)
    (sk ek : JwkKeyPair)
    (hs : gen { keyAlgorithm := "Ed25519", keyId := "#dwn-sig" } = Except.ok sk)
    (he : gen { keyAlgorithm := "Ed25519", keyId := "#dwn-enc" } = Except.ok ek) :
    ∃ cfg : DidIonCreateOptions,
      generateDwnConfiguration gen dwnUrls = Except.ok cfg ∧
      cfg.services.length = 1 ∧
      (∀ svc ∈ cfg.services,
        svc.type = "DecentralizedWebNode" ∧
        svc.serviceEndpoint.nodes = dwnUrls ∧
        svc.serviceEndpoint.signingKeys = ["#dwn-sig"] ∧
        svc.serviceEndpoint.encryptionKeys = ["#dwn-enc"]) ∧
      cfg.keySet.verificationMethodKeys.length = 2 := by
  have hcfg : generateDwnConfiguration gen dwnUrls = Except.ok
      { keySet :=
          { verificationMethodKeys :=
              [ { keyPair := sk, relationships := ["authentication"] },
                { keyPair := ek, relationships := ["keyAgreement"] } ] },
        services :=
          [ { id := "#dwn",
              type := "DecentralizedWebNode",
              serviceEndpoint :=
                { nodes := dwnUrls,
                  signingKeys := ["#dwn-sig"],
                  encryptionKeys := ["#dwn-enc"] } } ] } := by
    unfold generateDwnConfiguration
    rw [hs, except_ok_bind, he, except_ok_bind]
    rfl
  refine ⟨_, hcfg, rfl, ?_, rfl⟩
  intro svc hsvc
  simp only [List.mem_singleton] at hsvc
  subst hsvc
  exact ⟨rfl, rfl, rfl, rfl⟩

/-- Witness for C1 at a concrete oracle and a concrete three-element URL
list with a duplicate. -/
theorem generateDwnConfiguration_service_shape_witness :
    ∃ cfg : DidIonCreateOptions,
      generateDwnConfiguration (fun _ => Except.ok { material := 7 })
        ["https://a.example", "https://b.example", "https://a.example"] = Except.ok cfg ∧
      cfg.services.length = 1 ∧
      (∀ svc ∈ cfg.services,
        svc.type = "DecentralizedWebNode" ∧
        svc.serviceEndpoint.nodes =
          ["https://a.example", "https://b.example", "https://a.example"] ∧
        svc.serviceEndpoint.signingKeys = ["#dwn-sig"] ∧
        svc.serviceEndpoint.encryptionKeys = ["#dwn-enc"]) ∧
      cfg.keySet.verificationMethodKeys.length = 2 :=
  generateDwnConfiguration_service_shape (fun _ => Except.ok { material := 7 })
    ["https://a.example", "https://b.example", "https://a.example"]
    { material := 7 } { material := 7 } rfl rfl

/-- C4: `generateDwnConfiguration` is all-or-nothing.  If the first
key-generation call fails, the underlying error is propagated unmodified;
if the second call fails after the first succeeded, the underlying error
is likewise propagated unmodified; in both cases no configuration object
is returned. -/
theorem generateDwnConfiguration_all_or_nothing
    (gen : KeyGenRequest → Except String JwkKeyPair) (dwnUrls : List String) :
    (∀ e : String,
      gen { keyAlgorithm := "Ed25519", keyId := "#dwn-sig" } = Except.error e →
        generateDwnConfiguration gen dwnUrls = Except.error e) ∧
    (∀ (sk : JwkKeyPair) (e : String),
      gen { keyAlgorithm := "Ed25519", keyId := "#dwn-sig" } = Except.ok sk →
      gen { keyAlgorithm := "Ed25519", keyId := "#dwn-enc" } = Except.error e →
        generateDwnConfiguration gen dwnUrls = Except.error e) := by
  constructor
  · intro e hs
    unfold generateDwnConfiguration
    rw [hs, except_error_bind]
  · intro sk e hs he
    unfold generateDwnConfiguration
    rw [hs, except_ok_bind, he, except_error_bind]

/-- Witness for C4 at a concrete oracle whose second (encryption) call
fails after the first (signing) call succeeded: the error string comes
through unmodified and no configuration is produced. -/
theorem generateDwnConfiguration_all_or_nothing_witness :
    generateDwnConfiguration
      (fun req => if req.keyId = "#dwn-sig"
        then Except.ok { material := 1 }
        else Except.error "KeyGenerationError")
      ["https://a.example"] = Except.error "KeyGenerationError" :=
  (generateDwnConfiguration_all_or_nothing
      (fun req => if req.keyId = "#dwn-sig"
        then Except.ok { material := 1 }
        else Except.error "KeyGenerationError")
      ["https://a.example"]).2
    { material := 1 } "KeyGenerationError" (by simp) (by simp)

/-- C10: for every input list, the configuration built from two
successful key-generation calls uses the fixed requests with algorithm
`Ed25519` and identifiers `#dwn-sig` / `#dwn-enc`, attaches relationship
`authentication` to the signing key and `keyAgreement` to the encryption
key, and embeds the fixed identifier lists in the service endpoint; none
of these values depend on `dwnUrls`. -/
theorem generateDwnConfiguration_fixed_keys
    (gen : KeyGenRequest → Except String JwkKeyPair) (dwnUrls : List String)
    (sk ek : JwkKeyPair)
    (hs : gen { keyAlgorithm := "Ed25519", keyId := "#dwn-sig" } = Except.ok sk)
    (he : gen { keyAlgorithm := "Ed25519", keyId := "#dwn-enc" } = Except.ok ek) :
    ∃ cfg : DidIonCreateOptions,
      generateDwnConfiguration gen dwnUrls = Except.ok cfg ∧
      cfg.keySet.verificationMethodKeys =
        [ { keyPair := sk, relationships := ["authentication"] },
          { keyPair := ek, relationships := ["keyAgreement"] } ] ∧
      (∀ svc ∈ cfg.services,
        svc.id = "#dwn" ∧
        svc.serviceEndpoint.signingKeys = ["#dwn-sig"] ∧
        svc.serviceEndpoint.encryptionKeys = ["#dwn-enc"]) ∧
      cfg.keySet = (match generateDwnConfiguration gen [] with
        | Except.ok c => c.keySet
        | Except.error _ => cfg.keySet) := by
  have hcfg : generateDwnConfiguration gen dwnUrls = Except.ok
      { keySet :=
          { verificationMethodKeys :=
              [ { keyPair := sk, relationships := ["authentication"] },
                { keyPair := ek, relationships := ["keyAgreement"] } ] },
        services :=
          [ { id := "#dwn",
              type := "DecentralizedWebNode",
              serviceEndpoint :=
                { nodes := dwnUrls,
                  signingKeys := ["#dwn-sig"],
                  encryptionKeys := ["#dwn-enc"] } } ] } := by
    unfold generateDwnConfiguration
    rw [hs, except_ok_bind, he, except_ok_bind]
    rfl
  have hnil : generateDwnConfiguration gen [] = Except.ok
      { keySet :=
          { verificationMethodKeys :=
              [ { keyPair := sk, relationships := ["authentication"] },
                { keyPair := ek, relationships := ["keyAgreement"] } ] },
        services :=
          [ { id := "#dwn",
              type := "DecentralizedWebNode",
              serviceEndpoint :=
                { nodes := [],
                  signingKeys := ["#dwn-sig"],
                  encryptionKeys := ["#dwn-enc"] } } ] } := by
    unfold generateDwnConfiguration
    rw [hs, except_ok_bind, he, except_ok_bind]
    rfl
  refine ⟨_, hcfg, rfl, ?_, ?_⟩
  · intro svc hsvc
    simp only [List.mem_singleton] at hsvc
    subst hsvc
    exact ⟨rfl, rfl, rfl⟩
  · rw [hnil]

/-- Witness for C10 at a concrete oracle and a nonempty URL list. -/
theorem generateDwnConfiguration_fixed_keys_witness :
    ∃ cfg : DidIonCreateOptions,
      generateDwnConfiguration (fun req => Except.ok { material := req.keyId.length })
        ["https://node.example"] = Except.ok cfg ∧
      cfg.keySet.verificationMethodKeys =
        [ { keyPair := { material := 8 }, relationships := ["authentication"] },
          { keyPair := { material := 8 }, relationships := ["keyAgreement"] } ] ∧
      (∀ svc ∈ cfg.services,
        svc.id = "#dwn" ∧
        svc.serviceEndpoint.signingKeys = ["#dwn-sig"] ∧
        svc.serviceEndpoint.encryptionKeys = ["#dwn-enc"]) ∧
      cfg.keySet = (match generateDwnConfiguration
          (fun req => Except.ok { material := req.keyId.length }) [] with
        | Except.ok c => c.keySet
        | Except.error _ => cfg.keySet) :=
  generateDwnConfiguration_fixed_keys
    (fun req => Except.ok { material := req.keyId.length })
    ["https://node.example"] { material := 8 } { material := 8 } rfl rfl

end TechPreview

namespace TechPreview

/-- C7: a non-success HTTP status on the discovery fetch (e.g. 500) makes
`getTechPreviewDwnEndpoints` return an empty list without raising, and so
does a transport-level failure of the fetch itself. -/
theorem step1_failures_return_empty :
    (∀ (p : String → ProbeOutcome) (r : Nat → Rat),
      getTechPreviewDwnEndpoints FetchResult.transportError p r = Except.ok []) ∧
    (∀ (status : Nat) (body : BodyResult) (p : String → ProbeOutcome) (r : Nat → Rat),
      responseOk status = false →
      getTechPreviewDwnEndpoints (FetchResult.response status body) p r = Except.ok []) := by
  constructor
  · intro p r; rfl
  · intro status body p r h
    simp [getTechPreviewDwnEndpoints, getTechPreviewDwnEndpointsRun, h, Except.map]

/-- Witness for C7 at status 500 (and at a transport failure). -/
theorem step1_failures_return_empty_witness :
    responseOk 500 = false ∧
    getTechPreviewDwnEndpoints (FetchResult.response 500 BodyResult.parseError)
      (fun _ => ProbeOutcome.success) (fun _ => 0) = Except.ok [] ∧
    getTechPreviewDwnEndpoints FetchResult.transportError
      (fun _ => ProbeOutcome.success) (fun _ => 0) = Except.ok [] :=
  ⟨by decide,
   step1_failures_return_empty.2 500 BodyResult.parseError
     (fun _ => ProbeOutcome.success) (fun _ => 0) (by decide),
   step1_failures_return_empty.1 (fun _ => ProbeOutcome.success) (fun _ => 0)⟩

/-- Counterexample to C8 as stated: a matching descriptor whose endpoint
field is the JSON value `null` lacks an array-valued `nodes` sub-field,
yet the source does not return an empty set: `null` passes the `in`,
`Array.isArray` and `typeof` checks and `serviceEndpoint.nodes` then
throws an uncaught TypeError, rejecting the promise. -/
theorem null_endpoint_shape_counterexample :
    getTechPreviewDwnEndpoints
      (FetchResult.response 200 (BodyResult.doc nullEndpointDoc))
      (fun _ => ProbeOutcome.success) (fun _ => 0) =
    Except.error "TypeError: cannot read properties of null reading nodes" := by
  rfl

/-- C8 (amended): when the matching descriptor's endpoint is a plain
string, an array, or a structured object without an array-valued `nodes`
sub-field, `getTechPreviewDwnEndpoints` performs zero health probes and
returns an empty list; but when the endpoint is the JSON value `null`
(which also lacks such a sub-field) the returned promise instead rejects
with a TypeError. -/
theorem wrong_endpoint_shape_no_probes
    (status : Nat) (d : DidDocument) (svc : DiscoveredService)
    (p : String → ProbeOutcome) (r : Nat → Rat)
    (hok : responseOk status = true)
    (hsvc : (getServices d "#dwn" "DecentralizedWebNode").head? = some svc) :
    (((∃ s, svc.serviceEndpoint = some (ServiceEndpointValue.str s)) ∨
      (∃ k, svc.serviceEndpoint = some (ServiceEndpointValue.arr k)) ∨
      svc.serviceEndpoint = some (ServiceEndpointValue.obj NodesField.absent) ∨
      svc.serviceEndpoint = some (ServiceEndpointValue.obj NodesField.nonArrayValue)) →
      getTechPreviewDwnEndpointsRun (FetchResult.response status (BodyResult.doc d)) p r =
        Except.ok ([], 0) ∧
      getTechPreviewDwnEndpoints (FetchResult.response status (BodyResult.doc d)) p r =
        Except.ok []) ∧
    (svc.serviceEndpoint = some ServiceEndpointValue.nullValue →
      getTechPreviewDwnEndpoints (FetchResult.response status (BodyResult.doc d)) p r =
        Except.error "TypeError: cannot read properties of null reading nodes") := by
  constructor
  · intro hshape
    have hrun : getTechPreviewDwnEndpointsRun
        (FetchResult.response status (BodyResult.doc d)) p r = Except.ok ([], 0) := by
      rcases hshape with ⟨s, hep⟩ | ⟨k, hep⟩ | hep | hep <;>
        simp [getTechPreviewDwnEndpointsRun, hok, hsvc, hep]
    refine ⟨hrun, ?_⟩
    show (getTechPreviewDwnEndpointsRun _ p r).map Prod.fst = _
    rw [hrun]
    rfl
  · intro hnull
    simp [getTechPreviewDwnEndpoints, getTechPreviewDwnEndpointsRun, hok, hsvc, hnull,
      Except.map]

/-- Witness for the amended C8 at a concrete document with a plain-string
endpoint (degrades to empty) and a concrete document with a `null`
endpoint (rejects). -/
theorem wrong_endpoint_shape_no_probes_witness :
    (getTechPreviewDwnEndpointsRun
      (FetchResult.response 200 (BodyResult.doc strEndpointDoc))
      (fun _ => ProbeOutcome.success) (fun _ => 0) = Except.ok ([], 0) ∧
    getTechPreviewDwnEndpoints
      (FetchResult.response 200 (BodyResult.doc strEndpointDoc))
      (fun _ => ProbeOutcome.success) (fun _ => 0) = Except.ok []) ∧
    getTechPreviewDwnEndpoints
      (FetchResult.response 200 (BodyResult.doc nullEndpointDoc))
      (fun _ => ProbeOutcome.success) (fun _ => 0) =
      Except.error "TypeError: cannot read properties of null reading nodes" :=
  ⟨(wrong_endpoint_shape_no_probes 200 strEndpointDoc strEndpointService
      (fun _ => ProbeOutcome.success) (fun _ => 0)
      (by decide) (by decide)).1 (Or.inl ⟨"https://x.example", rfl⟩),
   (wrong_endpoint_shape_no_probes 200 nullEndpointDoc nullEndpointService
      (fun _ => ProbeOutcome.success) (fun _ => 0)
      (by decide) (by decide)).2 rfl⟩

/-- C9: for every random draw in `[0, 1)` and every integer `n ≥ 1`,
`getRandomInt 0 n` returns an integer in `[0, n)`; consequently the index
used for the candidate-array access in the probing loop is in bounds. -/
theorem getRandomInt_range_safe (q : Rat) (h0 : 0 ≤ q) (h1 : q < 1) :
    (∀ n : Nat, 1 ≤ n →
      0 ≤ getRandomInt q 0 (n : Rat) ∧ getRandomInt q 0 (n : Rat) < n) ∧
    (∀ dwnUrls : List String, 1 ≤ dwnUrls.length →
      (getRandomInt q 0 (dwnUrls.length : Rat)).toNat < dwnUrls.length) :=
  ⟨fun n hn => getRandomInt_bounds q n h0 h1 hn,
   fun dwnUrls hu => getRandomInt_toNat_lt q dwnUrls.length h0 h1 hu⟩

/-- Witness for C9 at the draw 1/2 and a three-element candidate list. -/
theorem getRandomInt_range_safe_witness :
    (0 ≤ getRandomInt (1/2) 0 ((3 : Nat) : Rat) ∧
      getRandomInt (1/2) 0 ((3 : Nat) : Rat) < 3) ∧
    (getRandomInt (1/2) 0
        ((["https://a.example", "https://b.example", "https://c.example"].length : Nat) : Rat)).toNat <
      ["https://a.example", "https://b.example", "https://c.example"].length :=
  ⟨(getRandomInt_range_safe (1/2) (by norm_num) (by norm_num)).1 3 (by norm_num),
   (getRandomInt_range_safe (1/2) (by norm_num) (by norm_num)).2
     ["https://a.example", "https://b.example", "https://c.example"] (by norm_num)⟩

end TechPreview

namespace TechPreview

/-- C5: for every candidate list, probe behaviour and draw sequence, the
probing loop performs at most `n = urls.length` probes; it stops early
only by filling the target `min n 2` (so a probe failure never aborts it,
the attempt counter advancing on every iteration); and re-adding an
already-selected URL leaves the result set unchanged. -/
theorem probing_loop_bounded
    (status : Nat) (d : DidDocument) (svc : DiscoveredService)
    (urls : List String) (p : String → ProbeOutcome) (r : Nat → Rat)
    (hok : responseOk status = true)
    (hsvc : (getServices d "#dwn" "DecentralizedWebNode").head? = some svc)
    (hep : svc.serviceEndpoint =
      some (ServiceEndpointValue.obj (NodesField.urlArray urls))) :
    ∃ (res : List String) (cnt : Nat),
      getTechPreviewDwnEndpointsRun (FetchResult.response status (BodyResult.doc d)) p r =
        Except.ok (res, cnt) ∧
      cnt ≤ urls.length ∧
      (cnt = urls.length ∨ res.length = min urls.length 2) ∧
      (∀ (acc : List String) (x : String), x ∈ acc → setAdd acc x = acc) := by
  rw [run_eq_probeLoop p r hok hsvc hep]
  exact ⟨_, _, rfl,
    probeLoop_count_le urls p r (min urls.length 2) urls.length 0 [],
    probeLoop_exit urls p r (min urls.length 2) urls.length 0 [] (by simp),
    fun acc x h => setAdd_of_mem h⟩

/-- Witness for C5 at a one-element candidate list whose probe always
fails at the transport level. -/
theorem probing_loop_bounded_witness :
    ∃ (res : List String) (cnt : Nat),
      getTechPreviewDwnEndpointsRun
        (FetchResult.response 200 (BodyResult.doc (sampleDoc ["https://a.example"])))
        (fun _ => ProbeOutcome.transportError) (fun _ => 0) = Except.ok (res, cnt) ∧
      cnt ≤ 1 ∧
      (cnt = 1 ∨ res.length = min 1 2) ∧
      (∀ (acc : List String) (x : String), x ∈ acc → setAdd acc x = acc) :=
  probing_loop_bounded 200 (sampleDoc ["https://a.example"])
    { id := "#dwn",
      type := "DecentralizedWebNode",
      serviceEndpoint :=
        some (ServiceEndpointValue.obj (NodesField.urlArray ["https://a.example"])) }
    ["https://a.example"]
    (fun _ => ProbeOutcome.transportError) (fun _ => 0)
    (by decide) (by decide) rfl

/-- C6: for every candidate list, probe behaviour and in-range draw
sequence, the returned endpoint list has no duplicates, has size at most
`min n 2`, contains only candidate URLs, and contains only URLs whose
health probe succeeded. -/
theorem selected_endpoints_invariants
    (status : Nat) (d : DidDocument) (svc : DiscoveredService)
    (urls : List String) (p : String → ProbeOutcome) (r : Nat → Rat)
    (hok : responseOk status = true)
    (hsvc : (getServices d "#dwn" "DecentralizedWebNode").head? = some svc)
    (hep : svc.serviceEndpoint =
      some (ServiceEndpointValue.obj (NodesField.urlArray urls)))
    (hr : ∀ i, 0 ≤ r i ∧ r i < 1) :
    ∃ (res : List String) (cnt : Nat),
      getTechPreviewDwnEndpointsRun (FetchResult.response status (BodyResult.doc d)) p r =
        Except.ok (res, cnt) ∧
      getTechPreviewDwnEndpoints (FetchResult.response status (BodyResult.doc d)) p r =
        Except.ok res ∧
      res.Nodup ∧
      res.length ≤ min urls.length 2 ∧
      (∀ x ∈ res, x ∈ urls ∧ p x = ProbeOutcome.success) := by
  have hrun := run_eq_probeLoop p r hok hsvc hep
  refine ⟨_, _, hrun, ?_, ?_, ?_, ?_⟩
  · show (getTechPreviewDwnEndpointsRun _ p r).map Prod.fst = _
    rw [hrun]
    rfl
  · exact probeLoop_nodup urls p r (min urls.length 2) urls.length 0 [] List.nodup_nil
  · exact probeLoop_length_le urls p r (min urls.length 2) urls.length 0 [] (by simp)
  · intro x hx
    rcases Nat.eq_zero_or_pos urls.length with hz | hpos
    · rw [List.length_eq_zero] at hz
      subst hz
      simp [probeLoop] at hx
    · rcases probeLoop_mem urls p r (min urls.length 2) hr hpos
          urls.length 0 [] x hx with h0 | h1
      · simp at h0
      · exact h1

/-- Witness for C6 at a two-element candidate list with one healthy node
and the constant draw 0. -/
theorem selected_endpoints_invariants_witness :
    ∃ (res : List String) (cnt : Nat),
      getTechPreviewDwnEndpointsRun
        (FetchResult.response 204 (BodyResult.doc
          (sampleDoc ["https://a.example", "https://b.example"])))
        (fun u => if u = "https://a.example"
          then ProbeOutcome.success else ProbeOutcome.httpFailure)
        (fun _ => 0) = Except.ok (res, cnt) ∧
      getTechPreviewDwnEndpoints
        (FetchResult.response 204 (BodyResult.doc
          (sampleDoc ["https://a.example", "https://b.example"])))
        (fun u => if u = "https://a.example"
          then ProbeOutcome.success else ProbeOutcome.httpFailure)
        (fun _ => 0) = Except.ok res ∧
      res.Nodup ∧
      res.length ≤ min ["https://a.example", "https://b.example"].length 2 ∧
      (∀ x ∈ res, x ∈ ["https://a.example", "https://b.example"] ∧
        (fun u => if u = "https://a.example"
          then ProbeOutcome.success else ProbeOutcome.httpFailure) x =
          ProbeOutcome.success) :=
  selected_endpoints_invariants 204
    (sampleDoc ["https://a.example", "https://b.example"])
    { id := "#dwn",
      type := "DecentralizedWebNode",
      serviceEndpoint :=
        some (ServiceEndpointValue.obj
          (NodesField.urlArray ["https://a.example", "https://b.example"])) }
    ["https://a.example", "https://b.example"]
    (fun u => if u = "https://a.example"
      then ProbeOutcome.success else ProbeOutcome.httpFailure)
    (fun _ => 0)
    (by decide) (by decide) rfl
    (fun _ => ⟨le_refl 0, by norm_num⟩)

end TechPreview

namespace TechPreview

/-- Counterexample to C3 as stated: five distinct all-healthy candidates,
but the draw sequence constantly 0 (a legal `Math.random` output) redraws
the first URL on every attempt, so the returned set has size 1, not 2. -/
theorem five_healthy_constant_draw_counterexample :
    getTechPreviewDwnEndpoints
      (FetchResult.response 200 (BodyResult.doc (sampleDoc
        ["https://a.example", "https://b.example", "https://c.example",
         "https://d.example", "https://e.example"])))
      (fun _ => ProbeOutcome.success) (fun _ => 0) =
      Except.ok ["https://a.example"] ∧
    (["https://a.example"] : List String).length ≠ 2 := by
  constructor
  · norm_num [getTechPreviewDwnEndpoints, getTechPreviewDwnEndpointsRun, responseOk,
      getServices, sampleDoc, probeLoop, stepAdd, setAdd, getRandomInt, Except.map]
  · decide

/-- C3 (amended): with 5 distinct all-healthy candidates, for every
in-range draw sequence the result has size between 1 and 2 (size exactly
2 is not guaranteed, since redraws may repeat an index), every member is
drawn from the candidate list, and at most 5 probe attempts are
performed. -/
theorem five_healthy_selection
    (status : Nat) (d : DidDocument) (svc : DiscoveredService)
    (urls : List String) (p : String → ProbeOutcome) (r : Nat → Rat)
    (hok : responseOk status = true)
    (hsvc : (getServices d "#dwn" "DecentralizedWebNode").head? = some svc)
    (hep : svc.serviceEndpoint =
      some (ServiceEndpointValue.obj (NodesField.urlArray urls)))
    (hlen : urls.length = 5) (hnd : urls.Nodup)
    (hall : ∀ x ∈ urls, p x = ProbeOutcome.success)
    (hr : ∀ i, 0 ≤ r i ∧ r i < 1) :
    ∃ (res : List String) (cnt : Nat),
      getTechPreviewDwnEndpointsRun (FetchResult.response status (BodyResult.doc d)) p r =
        Except.ok (res, cnt) ∧
      getTechPreviewDwnEndpoints (FetchResult.response status (BodyResult.doc d)) p r =
        Except.ok res ∧
      1 ≤ res.length ∧ res.length ≤ 2 ∧
      (∀ x ∈ res, x ∈ urls) ∧
      cnt ≤ 5 := by
  have hrun := run_eq_probeLoop p r hok hsvc hep
  have hu : 1 ≤ urls.length := by omega
  refine ⟨_, _, hrun, ?_, ?_, ?_, ?_, ?_⟩
  · show (getTechPreviewDwnEndpointsRun _ p r).map Prod.fst = _
    rw [hrun]
    rfl
  · exact probeLoop_pos urls p r (min urls.length 2) hr hu hall (by omega)
      urls.length 0 (by omega)
  · have hle := probeLoop_length_le urls p r (min urls.length 2)
      urls.length 0 [] (by simp)
    omega
  · intro x hx
    rcases probeLoop_mem urls p r (min urls.length 2) hr hu
        urls.length 0 [] x hx with h0 | h1
    · simp at h0
    · exact h1.1
  · have hcnt := probeLoop_count_le urls p r (min urls.length 2) urls.length 0 []
    omega

/-- Witness for the amended C3 at five concrete healthy candidates and
the constant draw 1/2. -/
theorem five_healthy_selection_witness :
    ∃ (res : List String) (cnt : Nat),
      getTechPreviewDwnEndpointsRun
        (FetchResult.response 200 (BodyResult.doc (sampleDoc
          ["https://a.example", "https://b.example", "https://c.example",
           "https://d.example", "https://e.example"])))
        (fun _ => ProbeOutcome.success) (fun _ => 1/2) = Except.ok (res, cnt) ∧
      getTechPreviewDwnEndpoints
        (FetchResult.response 200 (BodyResult.doc (sampleDoc
          ["https://a.example", "https://b.example", "https://c.example",
           "https://d.example", "https://e.example"])))
        (fun _ => ProbeOutcome.success) (fun _ => 1/2) = Except.ok res ∧
      1 ≤ res.length ∧ res.length ≤ 2 ∧
      (∀ x ∈ res, x ∈ ["https://a.example", "https://b.example", "https://c.example",
        "https://d.example", "https://e.example"]) ∧
      cnt ≤ 5 :=
  five_healthy_selection 200
    (sampleDoc ["https://a.example", "https://b.example", "https://c.example",
      "https://d.example", "https://e.example"])
    { id := "#dwn",
      type := "DecentralizedWebNode",
      serviceEndpoint :=
        some (ServiceEndpointValue.obj (NodesField.urlArray
          ["https://a.example", "https://b.example", "https://c.example",
           "https://d.example", "https://e.example"])) }
    ["https://a.example", "https://b.example", "https://c.example",
     "https://d.example", "https://e.example"]
    (fun _ => ProbeOutcome.success) (fun _ => 1/2)
    (by decide) (by decide) rfl (by decide) (by decide)
    (fun x _ => rfl)
    (fun _ => ⟨by norm_num, by norm_num⟩)

/-- Counterexample to C2 as stated: a successful fetch of a parseable
document that contains no matching descriptor makes the source destructure
`undefined` and apply the `in` operator to it, so the promise rejects
instead of resolving with an empty set. -/
theorem discovery_degradation_counterexample :
    getTechPreviewDwnEndpoints
      (FetchResult.response 200 (BodyResult.doc { service := [] }))
      (fun _ => ProbeOutcome.success) (fun _ => 0) =
    Except.error "TypeError: cannot use in operator to search for serviceEndpoint in undefined" := by
  rfl

/-- C2 (amended): the `try` block of the source absorbs only the Step-1
failures, and most of the shape validation of Step 3 degrades to an empty
result; three failures are NOT absorbed.  Precisely: a transport failure
or a non-success status returns `[]`; a present matching descriptor whose
endpoint is a string, an array, or a structured object without an array
`nodes` field returns `[]`; but an unparseable body, the absence of any
matching descriptor, or a `null`-valued endpoint on the matching
descriptor, rejects with an error. -/
theorem discovery_degradation_actual :
    (∀ (p : String → ProbeOutcome) (r : Nat → Rat),
      getTechPreviewDwnEndpoints FetchResult.transportError p r = Except.ok []) ∧
    (∀ (status : Nat) (body : BodyResult) (p : String → ProbeOutcome) (r : Nat → Rat),
      responseOk status = false →
      getTechPreviewDwnEndpoints (FetchResult.response status body) p r = Except.ok []) ∧
    (∀ (status : Nat) (d : DidDocument) (svc : DiscoveredService)
        (p : String → ProbeOutcome) (r : Nat → Rat),
      responseOk status = true →
      (getServices d "#dwn" "DecentralizedWebNode").head? = some svc →
      svc.serviceEndpoint ≠ some ServiceEndpointValue.nullValue →
      (∀ urls : List String, svc.serviceEndpoint ≠
        some (ServiceEndpointValue.obj (NodesField.urlArray urls))) →
      getTechPreviewDwnEndpoints (FetchResult.response status (BodyResult.doc d)) p r =
        Except.ok []) ∧
    (∀ (status : Nat) (p : String → ProbeOutcome) (r : Nat → Rat),
      responseOk status = true →
      ∃ e, getTechPreviewDwnEndpoints (FetchResult.response status BodyResult.parseError) p r =
        Except.error e) ∧
    (∀ (status : Nat) (d : DidDocument) (p : String → ProbeOutcome) (r : Nat → Rat),
      responseOk status = true →
      (getServices d "#dwn" "DecentralizedWebNode").head? = none →
      ∃ e, getTechPreviewDwnEndpoints (FetchResult.response status (BodyResult.doc d)) p r =
        Except.error e) ∧
    (∀ (status : Nat) (d : DidDocument) (svc : DiscoveredService)
        (p : String → ProbeOutcome) (r : Nat → Rat),
      responseOk status = true →
      (getServices d "#dwn" "DecentralizedWebNode").head? = some svc →
      svc.serviceEndpoint = some ServiceEndpointValue.nullValue →
      ∃ e, getTechPreviewDwnEndpoints (FetchResult.response status (BodyResult.doc d)) p r =
        Except.error e) := by
  refine ⟨fun p r => rfl, ?_, ?_, ?_, ?_, ?_⟩
  · intro status body p r h
    simp [getTechPreviewDwnEndpoints, getTechPreviewDwnEndpointsRun, h, Except.map]
  · intro status d svc p r hok hsvc hnull hne
    rcases hse : svc.serviceEndpoint with _ | se
    · simp [getTechPreviewDwnEndpoints, getTechPreviewDwnEndpointsRun, hok, hsvc, hse,
        Except.map]
    · cases se with
      | str s =>
        simp [getTechPreviewDwnEndpoints, getTechPreviewDwnEndpointsRun, hok, hsvc, hse,
          Except.map]
      | arr k =>
        simp [getTechPreviewDwnEndpoints, getTechPreviewDwnEndpointsRun, hok, hsvc, hse,
          Except.map]
      | nullValue => exact absurd hse hnull
      | obj nf =>
        cases nf with
        | absent =>
          simp [getTechPreviewDwnEndpoints, getTechPreviewDwnEndpointsRun, hok, hsvc, hse,
            Except.map]
        | nonArrayValue =>
          simp [getTechPreviewDwnEndpoints, getTechPreviewDwnEndpointsRun, hok, hsvc, hse,
            Except.map]
        | urlArray urls => exact absurd hse (hne urls)
  · intro status p r hok
    exact ⟨"SyntaxError: response body is not valid JSON",
      by simp [getTechPreviewDwnEndpoints, getTechPreviewDwnEndpointsRun, hok, Except.map]⟩
  · intro status d p r hok hnone
    exact ⟨"TypeError: cannot use in operator to search for serviceEndpoint in undefined",
      by simp [getTechPreviewDwnEndpoints, getTechPreviewDwnEndpointsRun, hok, hnone,
        Except.map]⟩
  · intro status d svc p r hok hsvc hnull
    exact ⟨"TypeError: cannot read properties of null reading nodes",
      by simp [getTechPreviewDwnEndpoints, getTechPreviewDwnEndpointsRun, hok, hsvc, hnull,
        Except.map]⟩

/-- Witness for the amended C2: the no-matching-descriptor branch rejects
at a concrete empty document, the wrong-shape branch returns an empty
list at a concrete string-endpoint document, and the null-endpoint branch
rejects at a concrete null-endpoint document. -/
theorem discovery_degradation_actual_witness :
    (∃ e, getTechPreviewDwnEndpoints
      (FetchResult.response 200 (BodyResult.doc { service := [] }))
      (fun _ => ProbeOutcome.httpFailure) (fun _ => 0) = Except.error e) ∧
    getTechPreviewDwnEndpoints
      (FetchResult.response 200 (BodyResult.doc strEndpointDoc))
      (fun _ => ProbeOutcome.httpFailure) (fun _ => 0) = Except.ok [] ∧
    (∃ e, getTechPreviewDwnEndpoints
      (FetchResult.response 200 (BodyResult.doc nullEndpointDoc))
      (fun _ => ProbeOutcome.httpFailure) (fun _ => 0) = Except.error e) :=
  ⟨discovery_degradation_actual.2.2.2.2.1 200 { service := [] }
    (fun _ => ProbeOutcome.httpFailure) (fun _ => 0) (by decide) (by decide),
   discovery_degradation_actual.2.2.1 200 strEndpointDoc strEndpointService
    (fun _ => ProbeOutcome.httpFailure) (fun _ => 0) (by decide) (by decide)
    (by simp [strEndpointService])
    (fun urls h => by simp [strEndpointService] at h),
   discovery_degradation_actual.2.2.2.2.2 200 nullEndpointDoc nullEndpointService
    (fun _ => ProbeOutcome.httpFailure) (fun _ => 0) (by decide) (by decide) rfl⟩

end TechPreview
